import Mathlib

/-!
# Verification of the Anshu-backend turn relay

Shallow embedding of the turn-relay logic of the repository: the bounded
retry loop with exponential backoff around the text-generation call, the
`/speak` and `/transcribe-file` HTTP handlers, the `/live-stt` WebSocket
connection state machine, the voice-profile lookup table, the fenced-block
post-processing of generated text, and the terminal chat loop with its
conversation-history list.

External services (text generation, speech synthesis, speech-to-text) are
modelled as oracle parameters: the generation call is a function from the
prompt and the attempt index to `Except ε String`, synthesis is an abstract
function from text and voice profile to an audio value, and the
transcription result is given as a list of words.
-/

namespace AnshuBackend

/-- The fixed retry bound, `const MAX_RETRIES = 3` in every server file. -/
def MAX_RETRIES : Nat := 3

/-- Trace of one run of the generation retry loop: the outcome (the
successful result or the error thrown from the last attempt), how many
times the generation call was invoked, and the list of backoff waits (in
milliseconds) performed between consecutive attempts. -/
structure RetryTrace (ε α : Type) where
  result : Except ε α
  calls : Nat
  waits : List Nat
  deriving Repr

/-- The body of the retry loop, from the point where `attempt` attempts
remain counted and `extra` further attempts are still allowed after the
current one (`extra = MAX_RETRIES - 1 - attempt` in the JS loop).  Mirrors

```
for (let attempt = 0; attempt < MAX_RETRIES; attempt++) {
  try { result = await model.generateContent(text); break; }
  catch (error) {
    if (attempt === MAX_RETRIES - 1) { throw error; }
    await delay(Math.pow(2, attempt) * 1000);
  }
}
```

When `extra = 0` the current call is the final attempt and its error is
rethrown; otherwise a failure waits `2^attempt * 1000` ms and retries. -/
def retryFrom (gen : Nat → Except ε α) (attempt : Nat) : Nat → RetryTrace ε α
  | 0 =>
    match gen attempt with
    | .ok a => ⟨.ok a, 1, []⟩
    | .error e => ⟨.error e, 1, []⟩
  | extra + 1 =>
    match gen attempt with
    | .ok a => ⟨.ok a, 1, []⟩
    | .error _ =>
      let t := retryFrom gen (attempt + 1) extra
      ⟨t.result, t.calls + 1, (2 ^ attempt * 1000) :: t.waits⟩

/-- The whole retry loop: start at attempt 0 with `MAX_RETRIES - 1`
further attempts allowed. -/
def geminiRetry (gen : Nat → Except ε α) : RetryTrace ε α :=
  retryFrom gen 0 (MAX_RETRIES - 1)

/-- The whitespace characters of JS `\s` / `trim` relevant to this model
(the ASCII ones; the exotic Unicode space characters play no role in any
claim). -/
def isJsWs (c : Char) : Bool :=
  c = ' ' || c = '\t' || c = '\n' || c = '\r' || c = '\x0b' || c = '\x0c'

/-- JS `String.prototype.trim` on a character list: drop whitespace from
both ends. -/
def jsTrimList (l : List Char) : List Char :=
  ((l.dropWhile isJsWs).reverse.dropWhile isJsWs).reverse

/-- JS `text.trim()`. -/
def jsTrim (s : String) : String :=
  String.mk (jsTrimList s.data)

/-- A triple-backtick fence marker, as characters. -/
def fenceChars : List Char := ['\x60', '\x60', '\x60']

/-- JS `split('\n')` on a character list: the resulting lines (without
the separators); splitting the empty text yields one empty line, as in
JS. -/
def splitOnNl : List Char → List (List Char)
  | [] => [[]]
  | c :: cs =>
    match splitOnNl cs with
    | [] => [[]]
    | line :: rest =>
      if c = '\n' then [] :: line :: rest else (c :: line) :: rest

/-- `geminiTextResponse.split('\n').slice(1, -1).join('\n')`: the lines of
the text with the first and the last line removed, re-joined with
newlines. -/
def stripFirstAndLastLine (t : String) : String :=
  String.mk (List.intercalate ['\n'] (((splitOnNl t.data).drop 1).dropLast))

/-- Markdown-wrapper removal applied to the (already trimmed) generated
text, from `src/server.js`:

```
if (geminiTextResponse.startsWith('```') && geminiTextResponse.endsWith('```')) {
  geminiTextResponse = geminiTextResponse.split('\n').slice(1, -1).join('\n').trim();
}
```
-/
def removeMarkdownWrapper (t : String) : String :=
  if fenceChars.isPrefixOf t.data && fenceChars.isSuffixOf t.data then
    jsTrim (stripFirstAndLastLine t)
  else t

/-- Full post-processing of a raw generation result:
`geminiResult.response.text().trim()` followed by the wrapper removal. -/
def postProcess (raw : String) : String :=
  removeMarkdownWrapper (jsTrim raw)

/-- One entry of the static `VOICE_MAP` table: locale tag, voice name,
gender. -/
structure VoiceProfile where
  languageCode : String
  name : String
  ssmlGender : String
  deriving Repr, DecidableEq

/-- The default English voice profile, `VOICE_MAP['en']`. -/
def enVoice : VoiceProfile := ⟨"en-US", "en-US-Neural2-J", "MALE"⟩

/-- The static `VOICE_MAP` lookup table, identical in `server.js`,
`enhancedserver.js` and `heserver.js`. -/
def VOICE_MAP : String → Option VoiceProfile
  | "en" => some enVoice
  | "es" => some ⟨"es-ES", "es-ES-Wavenet-C", "MALE"⟩
  | "fr" => some ⟨"fr-FR", "fr-FR-Wavenet-B", "MALE"⟩
  | "de" => some ⟨"de-DE", "de-DE-Wavenet-E", "MALE"⟩
  | "ja" => some ⟨"ja-JP", "ja-JP-Wavenet-D", "MALE"⟩
  | "ru" => some ⟨"ru-RU", "ru-RU-Wavenet-C", "MALE"⟩
  | "hi" => some ⟨"hi-IN", "hi-IN-Wavenet-C", "MALE"⟩
  | "ta" => some ⟨"ta-IN", "ta-IN-Wavenet-D", "MALE"⟩
  | "te" => some ⟨"te-IN", "te-IN-Wavenet-C", "MALE"⟩
  | "ml" => some ⟨"ml-IN", "ml-IN-Wavenet-B", "MALE"⟩
  | "kn" => some ⟨"kn-IN", "kn-IN-Wavenet-B", "MALE"⟩
  | _ => none

/-! ## The `POST /speak` handler (`enhancedserver.js`) -/

/-- Response emitted by an HTTP handler: a 200 audio body, a 400 input
error, or a 500 server error (the latter optionally carrying the
underlying upstream error as `details`). -/
inductive SpeakResp (ε α : Type) where
  | audio (a : α)
  | badRequest (msg : String)
  | serverError (msg : String) (details : Option ε)
  deriving Repr, DecidableEq

/-- Observable outcome of one `/speak` request: the response plus a trace
of the external calls made (generation-call count, backoff waits, and the
list of synthesis calls with the exact text and voice each received). -/
structure SpeakOutcome (ε α : Type) where
  resp : SpeakResp ε α
  genCalls : Nat
  waits : List Nat
  ttsTexts : List (String × VoiceProfile)
  deriving Repr, DecidableEq

/-- The voice resolution of `/speak`:
`const { targetLangCode = 'en' } = req.body` (the destructuring default
fires only when the field is absent) followed by
`VOICE_MAP[targetLangCode] || VOICE_MAP['en']`. -/
def speakVoiceConfig (targetLang? : Option String) : VoiceProfile :=
  (VOICE_MAP (targetLang?.getD "en")).getD enVoice

/-- The `POST /speak` handler of `enhancedserver.js`, with the generation
call (`gen`, taking the prompt text and the attempt index) and the
synthesis call (`tts`) as oracles.  `text? = none` models an absent `text`
field; the JS guard `if (!text)` also rejects the empty string.  Note the
handler passes the raw `text` to generation without trimming, trims the
generated text, and (unlike the transcription routes) performs no fenced
block stripping. -/
def speakHandler (gen : String → Nat → Except ε String)
    (tts : String → VoiceProfile → α)
    (text? : Option String) (targetLang? : Option String) :
    SpeakOutcome ε α :=
  match text? with
  | none => ⟨.badRequest "No text provided", 0, [], []⟩
  | some text =>
    if text = "" then ⟨.badRequest "No text provided", 0, [], []⟩
    else
      let ttsVoiceConfig := speakVoiceConfig targetLang?
      let t := geminiRetry (gen text)
      match t.result with
      | .error e =>
        ⟨.serverError "Failed to generate speech" (some e), t.calls, t.waits, []⟩
      | .ok raw =>
        let geminiTextResponse := jsTrim raw
        if geminiTextResponse = "" then
          ⟨.serverError "Gemini did not provide a response" none, t.calls, t.waits, []⟩
        else
          ⟨.audio (tts geminiTextResponse ttsVoiceConfig), t.calls, t.waits,
            [(geminiTextResponse, ttsVoiceConfig)]⟩

/-! ## The `POST /transcribe-file` handler (`server.js`) -/

/-- One word of a Soniox transcription result (`result.words`). -/
structure SonioxWord where
  text : String
  language : Option String
  deriving Repr, DecidableEq

/-- The punctuation class of the cleanup regex. -/
def isPunctCls (c : Char) : Bool :=
  c = '.' || c = ',' || c = '?' || c = '!' || c = ';'

/-- `replace(/(\s+)([.,?!;])/g, '$2')`: delete every whitespace character
whose next non-whitespace character exists and is one of `.,?!;`. -/
def squeezeWsBeforePunct : List Char → List Char
  | [] => []
  | c :: cs =>
    if isJsWs c &&
        (match cs.dropWhile (fun d => isJsWs d) with
         | p :: _ => isPunctCls p
         | [] => false) then
      squeezeWsBeforePunct cs
    else c :: squeezeWsBeforePunct cs

/-- `result.words.map(w => w.text).join("").replace(/(\s+)([.,?!;])/g,'$2').trim()`. -/
def extractTranscript (words : List SonioxWord) : String :=
  String.mk (jsTrimList (squeezeWsBeforePunct
    ((words.map (fun w => w.text.data)).flatten)))

/-- The spoken-language fold of `server.js`:
`if (word.language && spokenLangCode === 'en') spokenLangCode = word.language`,
starting from `'en'` (a `language` of `""` is falsy in JS). -/
def detectSpokenLang (words : List SonioxWord) : String :=
  words.foldl (fun acc w =>
    match w.language with
    | some l => if l ≠ "" && acc = "en" then l else acc
    | none => acc) "en"

/-- `req.body.targetLangCode || 'en'`: both an absent field and the empty
string fall back to `'en'`. -/
def resolveTargetLang (targetLang? : Option String) : String :=
  match targetLang? with
  | none => "en"
  | some c => if c = "" then "en" else c

/-- Success body of `/transcribe-file`: the JSON envelope
`{ transcribedText, assistantResponse, audioBase64 }`. -/
structure TranscribeOk (α : Type) where
  transcribedText : String
  assistantResponse : String
  audio : α
  deriving Repr, DecidableEq

/-- Response of `/transcribe-file`. -/
inductive TranscribeResp (ε α : Type) where
  | ok (body : TranscribeOk α)
  | badRequest (msg : String)
  | serverError (msg : String) (details : Option ε)
  deriving Repr, DecidableEq

/-- Observable outcome of one `/transcribe-file` request, with the same
external-call trace as `SpeakOutcome`. -/
structure TranscribeOutcome (ε α : Type) where
  resp : TranscribeResp ε α
  genCalls : Nat
  waits : List Nat
  ttsTexts : List (String × VoiceProfile)
  deriving Repr, DecidableEq

/-- The `POST /transcribe-file` handler of `server.js`.  `hasFile` models
`req.file`; `words` is the transcription oracle's result; `gen` and `tts`
are as in `speakHandler`.  Control flow mirrors the source: missing file
check, strict `VOICE_MAP` check, transcription, empty-transcript check,
retry loop (a terminal generation error is caught by the outer
`catch` and becomes a 500 carrying `err.message`), trim + fence-strip,
empty-response check, single synthesis call, JSON envelope. -/
def transcribeFileHandler (gen : String → Nat → Except ε String)
    (tts : String → VoiceProfile → α)
    (hasFile : Bool) (words : List SonioxWord) (targetLang? : Option String) :
    TranscribeOutcome ε α :=
  if !hasFile then ⟨.badRequest "No audio file provided", 0, [], []⟩
  else
    let targetLangCode := resolveTargetLang targetLang?
    match VOICE_MAP targetLangCode with
    | none =>
      ⟨.badRequest ("Unsupported target language code: " ++ targetLangCode), 0, [], []⟩
    | some ttsVoiceConfig =>
      let transcribedText := extractTranscript words
      if transcribedText = "" then
        ⟨.badRequest "Could not transcribe audio. Text is empty.", 0, [], []⟩
      else
        let t := geminiRetry (gen transcribedText)
        match t.result with
        | .error e =>
          ⟨.serverError "Failed to process audio file" (some e), t.calls, t.waits, []⟩
        | .ok raw =>
          let geminiTextResponse := postProcess raw
          if geminiTextResponse = "" then
            ⟨.serverError "Gemini did not provide a response" none, t.calls, t.waits, []⟩
          else
            ⟨.ok ⟨transcribedText, geminiTextResponse, tts geminiTextResponse ttsVoiceConfig⟩,
              t.calls, t.waits, [(geminiTextResponse, ttsVoiceConfig)]⟩

/-- The query-parameter language normalization of `heserver.js`
`/process-raw-audio`:
`let targetLangCode = req.query.targetLangCode; if (!VOICE_MAP[targetLangCode]) { targetLangCode = 'en'; }`. -/
def heResolveLang (targetLang? : Option String) : String :=
  match targetLang? with
  | none => "en"
  | some c => if (VOICE_MAP c).isSome then c else "en"

/-! ## The `/live-stt` WebSocket connection (`enhancedserver.js`)

One connection is a fold over the events delivered to its handlers:
client audio chunks, Soniox transcription results, client close/error,
and Soniox stream errors.  All handler callbacks run on the single
event loop and the in-flight guard `ttsResponseSent` is checked and set
before the first `await`, so sequential processing of the delivered
events is a faithful model. -/

/-- An event delivered to the `/live-stt` connection handlers.  `χ` is
the type of client audio chunks. -/
inductive LiveEvent (χ : Type) where
  | message (chunk : χ)
  | sonioxData (isFinal : Bool) (text : String) (languageCode : Option String)
  | wsClose
  | wsError
  | sonioxError
  deriving Repr, DecidableEq

/-- State of one `/live-stt` connection: the three mutable variables of
the handler (`transcribedText`, `spokenLangCode`, `ttsResponseSent`),
the upstream Soniox stream state (`streamWritable`, and `streamEnded`
recording that an explicit `sonioxStream.end()` call happened), and an
observation trace: guarded-block entries (`turns`), generation and
synthesis call counts, frames sent to the client, and whether the server
closed the WebSocket. -/
structure LiveState (α χ : Type) where
  transcribedText : String := ""
  spokenLangCode : String := ""
  ttsResponseSent : Bool := false
  streamWritable : Bool := true
  streamEnded : Bool := false
  turns : Nat := 0
  genCalls : Nat := 0
  ttsCalls : Nat := 0
  sentAudio : List α := []
  sentErrors : List String := []
  wsClosed : Bool := false
  forwarded : List χ := []
  deriving Repr, DecidableEq

/-- The fresh state of a new connection. -/
def initLiveState (α χ : Type) : LiveState α χ := {}

/-- One event-handler dispatch of the `/live-stt` connection:

* `message`: `if (sonioxStream.writable) sonioxStream.write(audioChunk)`.
* `sonioxData`: only `is_final` results proceed.  The handler assigns
  `transcribedText = response.text.trim()` and
  `spokenLangCode = response.language_code || 'en'`, then calls
  `sonioxStream.end()`, then returns early when the text is empty or
  `ttsResponseSent` is already set; otherwise it sets the guard, runs
  the generation retry loop, post-processes (trim + fence strip — with
  no empty-response rejection on this route), synthesizes once, and
  sends the audio frame.  A terminal generation error sends a JSON
  error frame and closes the socket.
* `wsClose` / `wsError`: `if (sonioxStream && sonioxStream.writable) sonioxStream.end()`.
* `sonioxError`: sends a JSON error frame and closes the socket. -/
def liveStep (gen : String → Nat → Except ε String)
    (tts : String → VoiceProfile → α)
    (s : LiveState α χ) : LiveEvent χ → LiveState α χ
  | .message chunk =>
    if s.streamWritable then { s with forwarded := s.forwarded ++ [chunk] } else s
  | .sonioxData isFinal text languageCode =>
    if isFinal then
      let tt := jsTrim text
      let sl := match languageCode with
        | some l => if l = "" then "en" else l
        | none => "en"
      let s1 := { s with transcribedText := tt, spokenLangCode := sl,
                         streamEnded := true, streamWritable := false }
      if tt = "" || s.ttsResponseSent then s1
      else
        let s2 := { s1 with ttsResponseSent := true, turns := s.turns + 1 }
        let ttsVoiceConfig := (VOICE_MAP sl).getD enVoice
        let t := geminiRetry (gen tt)
        match t.result with
        | .error _ =>
          { s2 with genCalls := s2.genCalls + t.calls,
                    sentErrors := s2.sentErrors ++
                      ["Sorry, a server error occurred after transcribing."],
                    wsClosed := true }
        | .ok raw =>
          let g := postProcess raw
          { s2 with genCalls := s2.genCalls + t.calls,
                    ttsCalls := s2.ttsCalls + 1,
                    sentAudio := s2.sentAudio ++ [tts g ttsVoiceConfig] }
    else s
  | .wsClose =>
    if s.streamWritable then { s with streamEnded := true, streamWritable := false } else s
  | .wsError =>
    if s.streamWritable then { s with streamEnded := true, streamWritable := false } else s
  | .sonioxError =>
    { s with sentErrors := s.sentErrors ++ ["Speech service error."], wsClosed := true }

/-- A whole connection: fold the dispatcher over the delivered events. -/
def liveRun (gen : String → Nat → Except ε String)
    (tts : String → VoiceProfile → α) (events : List (LiveEvent χ)) :
    LiveState α χ :=
  events.foldl (liveStep gen tts) (initLiveState α χ)

/-- Is the event a final transcription result? -/
def isFinalEvent : LiveEvent χ → Bool
  | .sonioxData isFinal _ _ => isFinal
  | _ => false

/-! ## The terminal chat loop (`advancedchat.js`) -/

/-- One message of the in-memory conversation history. -/
structure ChatMessage where
  role : String
  content : String
  deriving Repr, DecidableEq

/-- Observable outcome of one iteration of `ask()`: the conversation
history after the iteration, the text handed to the synthesis call (if
any), and the prompt payloads passed to the generation call. -/
structure AskOutcome (ε : Type) where
  history : List ChatMessage
  spoken : Option String
  genPayloads : List (List String)
  deriving Repr

/-- One iteration of `ask()` in `advancedchat.js` on a non-"exit" line:
push the user message, call generation with the full mapped history
(`conversationHistory.map(m => ...)`); `if (!resp || !resp.text) throw`;
on success push the assistant message and synthesize it; any thrown
error is caught, logged, and leaves the history as it stands. -/
def askStep (gen : List String → Except ε String)
    (history : List ChatMessage) (userText : String) : AskOutcome ε :=
  let h1 := history ++ [⟨"user", userText⟩]
  let payload := h1.map (fun m => m.content)
  match gen payload with
  | .error _ => ⟨h1, none, [payload]⟩
  | .ok t =>
    if t = "" then ⟨h1, none, [payload]⟩
    else ⟨h1 ++ [⟨"assistant", t⟩], some t, [payload]⟩

/-! ## Helper lemmas -/

/-- If the first attempt succeeds, the retry loop makes exactly one call
and performs no wait. -/
theorem geminiRetry_ok_first (gen : Nat → Except ε α) (a : α)
    (h : gen 0 = .ok a) : geminiRetry gen = ⟨.ok a, 1, []⟩ := by
  simp [geminiRetry, MAX_RETRIES, retryFrom, h]

/-- Concrete generation oracle that fails twice and then answers. -/
def genTwoFailures : String → Nat → Except String String := fun _ n =>
  match n with
  | 0 => .error "err0"
  | 1 => .error "err1"
  | _ => .ok "answer"

/-- Concrete generation oracle that fails on every attempt. -/
def genAlwaysFails : String → Nat → Except String String := fun _ n =>
  match n with
  | 0 => .error "err0"
  | 1 => .error "err1"
  | _ => .error "err2"

/-- Concrete synthesis oracle used by witnesses: audio is the tagged text. -/
def ttsTag : String → VoiceProfile → String := fun s v =>
  "audio:" ++ v.languageCode ++ ":" ++ s

/-- Concrete generation oracle that always answers `"hi"`. -/
def genAlwaysOk : String → Nat → Except String String := fun _ _ => .ok "hi"

/-- Concrete generation oracle that answers whitespace only. -/
def genBlank : String → Nat → Except String String := fun _ _ => .ok "   "

/-! ## Claims -/

/-- C1: for every generation call that fails on the first two attempts
and succeeds on the third, the retry loop performs exactly 3 calls, waits
`2^0 * 1000 = 1000` ms after the first failure and `2^1 * 1000 = 2000` ms
after the second, and returns the third attempt's success result. -/
theorem c1_retry_two_failures_then_success
    (gen : Nat → Except ε α) (e0 e1 : ε) (a : α)
    (h0 : gen 0 = .error e0) (h1 : gen 1 = .error e1) (h2 : gen 2 = .ok a) :
    geminiRetry gen = ⟨.ok a, 3, [1000, 2000]⟩ := by
  simp [geminiRetry, MAX_RETRIES, retryFrom, h0, h1, h2]

/-- Witness for C1 at a concrete oracle. -/
theorem c1_witness :
    geminiRetry (genTwoFailures "hello") = ⟨.ok "answer", 3, [1000, 2000]⟩ :=
  c1_retry_two_failures_then_success (genTwoFailures "hello")
    "err0" "err1" "answer" rfl rfl rfl

/-- C2: for every generation call that fails on all 3 attempts, the
`/speak` handler returns a single terminal 500 error whose `details`
carry the last underlying error, after exactly 3 generation calls, and
performs zero synthesis calls. -/
theorem c2_all_attempts_fail_no_synthesis
    (gen : String → Nat → Except ε String) (tts : String → VoiceProfile → α)
    (text : String) (targetLang? : Option String) (e0 e1 e2 : ε)
    (htext : ¬text = "")
    (h0 : gen text 0 = .error e0) (h1 : gen text 1 = .error e1)
    (h2 : gen text 2 = .error e2) :
    speakHandler gen tts (some text) targetLang? =
      ⟨.serverError "Failed to generate speech" (some e2), 3, [1000, 2000], []⟩ := by
  simp [speakHandler, htext, geminiRetry, MAX_RETRIES, retryFrom, h0, h1, h2]

/-- Witness for C2 at a concrete oracle. -/
theorem c2_witness :
    speakHandler genAlwaysFails ttsTag (some "hello") none =
      ⟨.serverError "Failed to generate speech" (some "err2"), 3, [1000, 2000], []⟩ :=
  c2_all_attempts_fail_no_synthesis genAlwaysFails ttsTag "hello" none
    "err0" "err1" "err2" (by decide) rfl rfl rfl

/-- C4: generated text that, after trimming, both starts and ends with a
triple-fence marker is post-processed by removing exactly its first and
last line and trimming the remainder; text not wrapped in fences passes
through with only the trim applied. -/
theorem c4_fence_stripping (raw : String) :
    ((fenceChars.isPrefixOf (jsTrim raw).data = true ∧
        fenceChars.isSuffixOf (jsTrim raw).data = true) →
      postProcess raw = jsTrim (stripFirstAndLastLine (jsTrim raw))) ∧
    (¬(fenceChars.isPrefixOf (jsTrim raw).data = true ∧
        fenceChars.isSuffixOf (jsTrim raw).data = true) →
      postProcess raw = jsTrim raw) := by
  constructor
  · rintro ⟨h1, h2⟩
    simp [postProcess, removeMarkdownWrapper, h1, h2]
  · intro h
    rw [Classical.not_and_iff_or_not_not] at h
    rcases h with h | h <;>
      simp [postProcess, removeMarkdownWrapper,
        Bool.eq_false_iff.mpr h]

/-- Witness for C4 at a concrete fenced text. -/
theorem c4_witness :
    postProcess " \x60\x60\x60json\nhello world\n\x60\x60\x60 " =
      jsTrim (stripFirstAndLastLine
        (jsTrim " \x60\x60\x60json\nhello world\n\x60\x60\x60 ")) :=
  (c4_fence_stripping " \x60\x60\x60json\nhello world\n\x60\x60\x60 ").1
    ⟨by decide, by decide⟩

/-- C5 counterexample: a `/speak` request whose `text` is the single
space `" "` — empty after trimming — is NOT rejected: the `if (!text)`
guard only catches absent or empty-string text, so the handler performs
a generation call and returns a success response. -/
theorem c5_counterexample :
    (speakHandler genAlwaysOk ttsTag (some " ") none).genCalls = 1 ∧
    (speakHandler genAlwaysOk ttsTag (some " ") none).resp =
      .audio "audio:en-US:hi" := by
  decide

/-- C5 (amended): requests with a missing or empty-string `text` field
fail fast with a 400 input error and no generation or synthesis call,
and the transcription route rejects a transcript that is empty after
trimming (hence also whitespace-only audio transcripts) the same way;
only the `/speak` falsiness check lets whitespace-only text through. -/
theorem c5_empty_input_fails_fast :
    (∀ (ε α : Type) (gen : String → Nat → Except ε String)
        (tts : String → VoiceProfile → α) (targetLang? : Option String),
      speakHandler gen tts none targetLang? =
        ⟨.badRequest "No text provided", 0, [], []⟩ ∧
      speakHandler gen tts (some "") targetLang? =
        ⟨.badRequest "No text provided", 0, [], []⟩) ∧
    (∀ (ε α : Type) (gen : String → Nat → Except ε String)
        (tts : String → VoiceProfile → α) (words : List SonioxWord)
        (targetLang? : Option String) (cfg : VoiceProfile),
      VOICE_MAP (resolveTargetLang targetLang?) = some cfg →
      extractTranscript words = "" →
      transcribeFileHandler gen tts true words targetLang? =
        ⟨.badRequest "Could not transcribe audio. Text is empty.", 0, [], []⟩) := by
  constructor
  · intro ε α gen tts targetLang?
    constructor <;> simp [speakHandler]
  · intro ε α gen tts words targetLang? cfg hcfg hempty
    simp [transcribeFileHandler, hcfg, hempty]

/-- Witness for C5's amended theorem at concrete oracles. -/
theorem c5_witness :
    speakHandler genAlwaysOk ttsTag (some "") none =
      ⟨.badRequest "No text provided", 0, [], []⟩ ∧
    transcribeFileHandler genAlwaysOk ttsTag true [⟨" ", none⟩] none =
      ⟨.badRequest "Could not transcribe audio. Text is empty.", 0, [], []⟩ :=
  ⟨(c5_empty_input_fails_fast.1 String String genAlwaysOk ttsTag none).2,
   c5_empty_input_fails_fast.2 String String genAlwaysOk ttsTag
     [⟨" ", none⟩] none enVoice rfl (by decide)⟩

/-- C6: for a target-language code missing from `VOICE_MAP`, the strict
`/transcribe-file` route fails with a 400 input error before any
generation or synthesis call (for any nonempty code — the empty string
falls back to `'en'` through `|| 'en'` before the strict check), the
lenient `/speak` route resolves to the default `'en'` profile, and the
`heserver.js` query-parameter normalization resolves to `'en'`; the
normalized code always has a defined voice profile. -/
theorem c6_unknown_language_policy (code : String)
    (hcode : VOICE_MAP code = none) :
    (¬code = "" →
      ∀ (ε α : Type) (gen : String → Nat → Except ε String)
        (tts : String → VoiceProfile → α) (words : List SonioxWord),
        transcribeFileHandler gen tts true words (some code) =
          ⟨.badRequest ("Unsupported target language code: " ++ code),
            0, [], []⟩) ∧
    speakVoiceConfig (some code) = enVoice ∧
    heResolveLang (some code) = "en" ∧
    (∀ targetLang? : Option String,
      (VOICE_MAP (heResolveLang targetLang?)).isSome = true) := by
  refine ⟨?_, ?_, ?_, ?_⟩
  · intro hne ε α gen tts words
    simp [transcribeFileHandler, resolveTargetLang, hne, hcode]
  · simp [speakVoiceConfig, hcode]
  · simp [heResolveLang, hcode]
  · intro targetLang?
    cases targetLang? with
    | none => decide
    | some c =>
      by_cases h : (VOICE_MAP c).isSome
      · simp [heResolveLang, h]
      · simp [heResolveLang, h]
        decide

/-- Witness for C6 at the concrete unknown code `"xx"`. -/
theorem c6_witness :
    transcribeFileHandler genAlwaysOk ttsTag true [] (some "xx") =
      ⟨.badRequest "Unsupported target language code: xx", 0, [], []⟩ ∧
    speakVoiceConfig (some "xx") = enVoice ∧
    heResolveLang (some "xx") = "en" :=
  ⟨(c6_unknown_language_policy "xx" rfl).1 (by decide)
      String String genAlwaysOk ttsTag [],
   (c6_unknown_language_policy "xx" rfl).2.1,
   (c6_unknown_language_policy "xx" rfl).2.2.1⟩

/-- C7: when the generation result's post-processed text is empty, both
the `/speak` route (trim only) and the `/transcribe-file` route (trim +
fence strip) return a structured 500 error and make no synthesis call. -/
theorem c7_empty_generation_rejected :
    (∀ (ε α : Type) (gen : String → Nat → Except ε String)
        (tts : String → VoiceProfile → α) (text : String)
        (targetLang? : Option String) (raw : String),
      ¬text = "" →
      (geminiRetry (gen text)).result = .ok raw →
      jsTrim raw = "" →
      (speakHandler gen tts (some text) targetLang?).resp =
        .serverError "Gemini did not provide a response" none ∧
      (speakHandler gen tts (some text) targetLang?).ttsTexts = []) ∧
    (∀ (ε α : Type) (gen : String → Nat → Except ε String)
        (tts : String → VoiceProfile → α) (words : List SonioxWord)
        (targetLang? : Option String) (cfg : VoiceProfile) (raw : String),
      VOICE_MAP (resolveTargetLang targetLang?) = some cfg →
      ¬extractTranscript words = "" →
      (geminiRetry (gen (extractTranscript words))).result = .ok raw →
      postProcess raw = "" →
      (transcribeFileHandler gen tts true words targetLang?).resp =
        .serverError "Gemini did not provide a response" none ∧
      (transcribeFileHandler gen tts true words targetLang?).ttsTexts = []) := by
  constructor
  · intro ε α gen tts text targetLang? raw htext hres htrim
    constructor <;> simp [speakHandler, htext, hres, htrim]
  · intro ε α gen tts words targetLang? cfg raw hcfg htr hres hpp
    constructor <;> simp [transcribeFileHandler, hcfg, htr, hres, hpp]

/-- Witness for C7 at a concrete whitespace-only generation result. -/
theorem c7_witness :
    (speakHandler genBlank ttsTag (some "hello") none).resp =
      .serverError "Gemini did not provide a response" none ∧
    (speakHandler genBlank ttsTag (some "hello") none).ttsTexts = [] :=
  c7_empty_generation_rejected.1 String String genBlank ttsTag
    "hello" none "   " (by decide) rfl (by decide)

/-- C10 counterexample: in the chat loop, the user message is pushed to
the conversation history BEFORE the generation call, so a failed Turn
does not leave the context list unchanged — starting from the empty
history, a turn whose generation call fails leaves `[user "hi"]`. -/
theorem c10_counterexample :
    (askStep (fun _ => (.error "boom" : Except String String)) [] "hi").history =
      [⟨"user", "hi"⟩] ∧
    ¬(askStep (fun _ => (.error "boom" : Except String String)) [] "hi").history
        = [] := by
  decide

/-- C10 (amended): the context list is append-only and is passed in full
(untruncated) to every generation call; the user message is appended
before the generation call — so a failed Turn leaves the context with
exactly the user message appended — and the assistant reply is appended
only after a successful, nonempty generation result. -/
theorem c10_context_append (gen : List String → Except ε String)
    (history : List ChatMessage) (u : String) :
    (askStep gen history u).genPayloads =
      [(history ++ [ChatMessage.mk "user" u]).map (fun m => m.content)] ∧
    (∃ suffix, (askStep gen history u).history = history ++ suffix) ∧
    (∀ e, gen ((history ++ [ChatMessage.mk "user" u]).map (fun m => m.content)) =
        .error e →
      (askStep gen history u).history = history ++ [ChatMessage.mk "user" u] ∧
      (askStep gen history u).spoken = none) ∧
    (∀ t, gen ((history ++ [ChatMessage.mk "user" u]).map (fun m => m.content)) =
        .ok t →
      ¬t = "" →
      (askStep gen history u).history =
        history ++ [ChatMessage.mk "user" u, ChatMessage.mk "assistant" t] ∧
      (askStep gen history u).spoken = some t) := by
  refine ⟨?_, ?_, ?_, ?_⟩
  · cases hres : gen ((history ++ [ChatMessage.mk "user" u]).map
        (fun m => m.content)) with
    | error e => simp at hres; simp [askStep, hres]
    | ok t =>
      simp at hres
      by_cases ht : t = "" <;> simp [askStep, hres, ht]
  · cases hres : gen ((history ++ [ChatMessage.mk "user" u]).map
        (fun m => m.content)) with
    | error e =>
      simp at hres
      exact ⟨[ChatMessage.mk "user" u], by simp [askStep, hres]⟩
    | ok t =>
      simp at hres
      by_cases ht : t = ""
      · exact ⟨[ChatMessage.mk "user" u], by simp [askStep, hres, ht]⟩
      · exact ⟨[ChatMessage.mk "user" u, ChatMessage.mk "assistant" t],
          by simp [askStep, hres, ht]⟩
  · intro e hres
    simp at hres
    constructor <;> simp [askStep, hres]
  · intro t hres ht
    simp at hres
    constructor <;> simp [askStep, hres, ht]

/-- Witness for C10's amended theorem at a concrete successful turn. -/
theorem c10_witness :
    (askStep (fun _ => (.ok "yo" : Except String String)) [] "hi").history =
      [⟨"user", "hi"⟩, ⟨"assistant", "yo"⟩] ∧
    (askStep (fun _ => (.ok "yo" : Except String String)) [] "hi").spoken =
      some "yo" := by
  have h := (c10_context_append (fun _ => (.ok "yo" : Except String String))
    [] "hi").2.2.2 "yo" rfl (by decide)
  simpa using h

/-- C9: on `/transcribe-file`, a success response carries exactly this
Turn's data — its `audio` is the synthesis of exactly its own validated
(nonempty) post-processed `assistantResponse`, which is the post-processing
of the retry loop's successful result for this Turn's transcript, and the
one synthesis call made received exactly that text; every non-success
response is a single structured error with zero synthesis calls, so no
partial or mixed result is ever returned. -/
theorem c9_audio_matches_turn_text
    (ε α : Type) (gen : String → Nat → Except ε String)
    (tts : String → VoiceProfile → α) (hasFile : Bool)
    (words : List SonioxWord) (targetLang? : Option String) :
    (∀ body, (transcribeFileHandler gen tts hasFile words targetLang?).resp =
        .ok body →
      ∃ cfg raw,
        VOICE_MAP (resolveTargetLang targetLang?) = some cfg ∧
        (geminiRetry (gen (extractTranscript words))).result = .ok raw ∧
        body.transcribedText = extractTranscript words ∧
        body.assistantResponse = postProcess raw ∧
        ¬body.assistantResponse = "" ∧
        body.audio = tts body.assistantResponse cfg ∧
        (transcribeFileHandler gen tts hasFile words targetLang?).ttsTexts =
          [(body.assistantResponse, cfg)]) ∧
    (∀ msg, (transcribeFileHandler gen tts hasFile words targetLang?).resp =
        .badRequest msg →
      (transcribeFileHandler gen tts hasFile words targetLang?).ttsTexts = []) ∧
    (∀ msg d, (transcribeFileHandler gen tts hasFile words targetLang?).resp =
        .serverError msg d →
      (transcribeFileHandler gen tts hasFile words targetLang?).ttsTexts = []) := by
  cases hasFile with
  | false =>
    refine ⟨?_, ?_, ?_⟩
    · intro body h; simp [transcribeFileHandler] at h
    · intro msg h; simp [transcribeFileHandler]
    · intro msg d h; simp [transcribeFileHandler] at h
  | true =>
    cases hvm : VOICE_MAP (resolveTargetLang targetLang?) with
    | none =>
      refine ⟨?_, ?_, ?_⟩
      · intro body h; simp [transcribeFileHandler, hvm] at h
      · intro msg h; simp [transcribeFileHandler, hvm]
      · intro msg d h; simp [transcribeFileHandler, hvm] at h
    | some cfg =>
      by_cases htr : extractTranscript words = ""
      · refine ⟨?_, ?_, ?_⟩
        · intro body h; simp [transcribeFileHandler, hvm, htr] at h
        · intro msg h; simp [transcribeFileHandler, hvm, htr]
        · intro msg d h; simp [transcribeFileHandler, hvm, htr] at h
      · cases hres : (geminiRetry (gen (extractTranscript words))).result with
        | error e =>
          refine ⟨?_, ?_, ?_⟩
          · intro body h; simp [transcribeFileHandler, hvm, htr, hres] at h
          · intro msg h; simp [transcribeFileHandler, hvm, htr, hres]
          · intro msg d h; simp [transcribeFileHandler, hvm, htr, hres]
        | ok raw =>
          by_cases hpp : postProcess raw = ""
          · refine ⟨?_, ?_, ?_⟩
            · intro body h; simp [transcribeFileHandler, hvm, htr, hres, hpp] at h
            · intro msg h; simp [transcribeFileHandler, hvm, htr, hres, hpp]
            · intro msg d h; simp [transcribeFileHandler, hvm, htr, hres, hpp]
          · refine ⟨?_, ?_, ?_⟩
            · intro body h
              simp [transcribeFileHandler, hvm, htr, hres, hpp] at h
              refine ⟨cfg, raw, rfl, rfl, ?_, ?_, ?_, ?_, ?_⟩ <;>
                simp [← h, transcribeFileHandler, hvm, htr, hres, hpp]
            · intro msg h; simp [transcribeFileHandler, hvm, htr, hres, hpp] at h
            · intro msg d h; simp [transcribeFileHandler, hvm, htr, hres, hpp] at h

/-- Witness for C9 at a concrete successful turn. -/
theorem c9_witness :
    ∃ cfg raw,
      VOICE_MAP (resolveTargetLang (some "en")) = some cfg ∧
      (geminiRetry (genAlwaysOk (extractTranscript [⟨"hi", none⟩]))).result =
        .ok raw ∧
      (TranscribeOk.mk "hi" "hi" "audio:en-US:hi" : TranscribeOk String).transcribedText =
        extractTranscript [⟨"hi", none⟩] ∧
      (TranscribeOk.mk "hi" "hi" "audio:en-US:hi").assistantResponse = postProcess raw ∧
      ¬(TranscribeOk.mk "hi" "hi" "audio:en-US:hi").assistantResponse = "" ∧
      (TranscribeOk.mk "hi" "hi" "audio:en-US:hi").audio =
        ttsTag (TranscribeOk.mk "hi" "hi" "audio:en-US:hi").assistantResponse cfg ∧
      (transcribeFileHandler genAlwaysOk ttsTag true [⟨"hi", none⟩]
          (some "en")).ttsTexts =
        [((TranscribeOk.mk "hi" "hi" "audio:en-US:hi").assistantResponse, cfg)] :=
  (c9_audio_matches_turn_text String String genAlwaysOk ttsTag true
    [⟨"hi", none⟩] (some "en")).1 (TranscribeOk.mk "hi" "hi" "audio:en-US:hi")
    (by decide)

/-! ## Lemmas about the `/live-stt` connection fold -/

/-- Once the in-flight guard is set, a single further event never enters
the guarded block: the guard stays set and the turn, generation and
synthesis counters are unchanged. -/
theorem liveStep_guard_set (gen : String → Nat → Except ε String)
    (tts : String → VoiceProfile → α) (s : LiveState α χ)
    (ev : LiveEvent χ) (h : s.ttsResponseSent = true) :
    (liveStep gen tts s ev).ttsResponseSent = true ∧
    (liveStep gen tts s ev).turns = s.turns ∧
    (liveStep gen tts s ev).genCalls = s.genCalls ∧
    (liveStep gen tts s ev).ttsCalls = s.ttsCalls := by
  cases ev with
  | message chunk => by_cases hw : s.streamWritable <;> simp [liveStep, hw, h]
  | sonioxData isFinal text lang =>
    cases isFinal <;> simp [liveStep, h]
  | wsClose => by_cases hw : s.streamWritable <;> simp [liveStep, hw, h]
  | wsError => by_cases hw : s.streamWritable <;> simp [liveStep, hw, h]
  | sonioxError => simp [liveStep, h]

/-- Once the in-flight guard is set, any further event sequence leaves
the guard set and the turn, generation and synthesis counters unchanged. -/
theorem liveRun_guard_set (gen : String → Nat → Except ε String)
    (tts : String → VoiceProfile → α) (events : List (LiveEvent χ)) :
    ∀ s : LiveState α χ, s.ttsResponseSent = true →
    (events.foldl (liveStep gen tts) s).ttsResponseSent = true ∧
    (events.foldl (liveStep gen tts) s).turns = s.turns ∧
    (events.foldl (liveStep gen tts) s).genCalls = s.genCalls ∧
    (events.foldl (liveStep gen tts) s).ttsCalls = s.ttsCalls := by
  induction events with
  | nil => intro s h; exact ⟨h, rfl, rfl, rfl⟩
  | cons ev rest ih =>
    intro s h
    have h1 := liveStep_guard_set gen tts s ev h
    have h2 := ih (liveStep gen tts s ev) h1.1
    exact ⟨h2.1, h2.2.1.trans h1.2.1, h2.2.2.1.trans h1.2.2.1,
      h2.2.2.2.trans h1.2.2.2⟩

/-- A non-final event leaves the guard and all three counters unchanged. -/
theorem liveStep_nonfinal (gen : String → Nat → Except ε String)
    (tts : String → VoiceProfile → α) (s : LiveState α χ)
    (ev : LiveEvent χ) (h : isFinalEvent ev = false) :
    (liveStep gen tts s ev).ttsResponseSent = s.ttsResponseSent ∧
    (liveStep gen tts s ev).turns = s.turns ∧
    (liveStep gen tts s ev).genCalls = s.genCalls ∧
    (liveStep gen tts s ev).ttsCalls = s.ttsCalls := by
  cases ev with
  | message chunk => by_cases hw : s.streamWritable <;> simp [liveStep, hw]
  | sonioxData isFinal text lang =>
    cases isFinal with
    | false => simp [liveStep]
    | true => simp [isFinalEvent] at h
  | wsClose => by_cases hw : s.streamWritable <;> simp [liveStep, hw]
  | wsError => by_cases hw : s.streamWritable <;> simp [liveStep, hw]
  | sonioxError => simp [liveStep]

/-- A sequence of non-final events leaves the guard and all three
counters unchanged. -/
theorem liveRun_nonfinal (gen : String → Nat → Except ε String)
    (tts : String → VoiceProfile → α) (events : List (LiveEvent χ)) :
    ∀ s : LiveState α χ, (∀ e ∈ events, isFinalEvent e = false) →
    (events.foldl (liveStep gen tts) s).ttsResponseSent = s.ttsResponseSent ∧
    (events.foldl (liveStep gen tts) s).turns = s.turns ∧
    (events.foldl (liveStep gen tts) s).genCalls = s.genCalls ∧
    (events.foldl (liveStep gen tts) s).ttsCalls = s.ttsCalls := by
  induction events with
  | nil => intro s _; exact ⟨rfl, rfl, rfl, rfl⟩
  | cons ev rest ih =>
    intro s h
    have h1 := liveStep_nonfinal gen tts s ev (h ev (by simp))
    have h2 := ih (liveStep gen tts s ev) (fun e he => h e (by simp [he]))
    exact ⟨h2.1.trans h1.1, h2.2.1.trans h1.2.1, h2.2.2.1.trans h1.2.2.1,
      h2.2.2.2.trans h1.2.2.2⟩

/-- A final event with nonempty trimmed text arriving while the guard is
clear enters the guarded block exactly once: it sets the guard and, when
the generation call succeeds on its first attempt, performs exactly one
generation call and one synthesis call. -/
theorem liveStep_trigger (gen : String → Nat → Except ε String)
    (tts : String → VoiceProfile → α) (s : LiveState α χ)
    (text : String) (lang : Option String) (r : String)
    (hguard : s.ttsResponseSent = false) (htext : ¬jsTrim text = "")
    (hgen : gen (jsTrim text) 0 = .ok r) :
    (liveStep gen tts s (.sonioxData true text lang)).ttsResponseSent = true ∧
    (liveStep gen tts s (.sonioxData true text lang)).turns = s.turns + 1 ∧
    (liveStep gen tts s (.sonioxData true text lang)).genCalls = s.genCalls + 1 ∧
    (liveStep gen tts s (.sonioxData true text lang)).ttsCalls = s.ttsCalls + 1 := by
  simp [liveStep, hguard, htext, geminiRetry_ok_first _ _ hgen]

/-- C3: on a streaming connection, for any event sequence whose first
final transcription event has nonempty trimmed text and is followed by
at least one further final event (all before the Turn completes on this
single-connection fold), the relay enters the guarded downstream block
exactly once and — with a generation oracle that succeeds on its first
attempt — performs exactly one generation call and one synthesis call;
the later final events are ignored because the in-flight boolean stays
set. -/
theorem c3_single_turn_per_connection
    (ε α χ : Type) (gen : String → Nat → Except ε String)
    (tts : String → VoiceProfile → α) (f : String → String)
    (hgen : ∀ t, gen t 0 = .ok (f t))
    (pre post : List (LiveEvent χ)) (text : String) (lang : Option String)
    (hpre : ∀ e ∈ pre, isFinalEvent e = false)
    (htext : ¬jsTrim text = "")
    (hmore : ∃ e ∈ post, isFinalEvent e = true) :
    (liveRun gen tts (pre ++ LiveEvent.sonioxData true text lang :: post)).turns
      = 1 ∧
    (liveRun gen tts (pre ++ LiveEvent.sonioxData true text lang :: post)).genCalls
      = 1 ∧
    (liveRun gen tts (pre ++ LiveEvent.sonioxData true text lang :: post)).ttsCalls
      = 1 := by
  unfold liveRun
  rw [List.foldl_append, List.foldl_cons]
  have h0 := liveRun_nonfinal gen tts pre (initLiveState α χ) hpre
  have htrig := liveStep_trigger gen tts
    (pre.foldl (liveStep gen tts) (initLiveState α χ)) text lang (f (jsTrim text))
    (h0.1.trans rfl) htext (hgen (jsTrim text))
  have hfrozen := liveRun_guard_set gen tts post
    (liveStep gen tts (pre.foldl (liveStep gen tts) (initLiveState α χ))
      (.sonioxData true text lang)) htrig.1
  refine ⟨?_, ?_, ?_⟩
  · rw [hfrozen.2.1, htrig.2.1, h0.2.1]; rfl
  · rw [hfrozen.2.2.1, htrig.2.2.1, h0.2.2.1]; rfl
  · rw [hfrozen.2.2.2, htrig.2.2.2, h0.2.2.2]; rfl

/-- Witness for C3 at a concrete two-final-event connection. -/
theorem c3_witness :
    (liveRun genAlwaysOk ttsTag
      ([LiveEvent.message (0 : Nat)] ++
        LiveEvent.sonioxData true "hello" none ::
          [LiveEvent.sonioxData true "again" none])).turns = 1 ∧
    (liveRun genAlwaysOk ttsTag
      ([LiveEvent.message (0 : Nat)] ++
        LiveEvent.sonioxData true "hello" none ::
          [LiveEvent.sonioxData true "again" none])).genCalls = 1 ∧
    (liveRun genAlwaysOk ttsTag
      ([LiveEvent.message (0 : Nat)] ++
        LiveEvent.sonioxData true "hello" none ::
          [LiveEvent.sonioxData true "again" none])).ttsCalls = 1 :=
  c3_single_turn_per_connection String String Nat genAlwaysOk ttsTag
    (fun _ => "hi") (fun _ => rfl)
    [LiveEvent.message 0] [LiveEvent.sonioxData true "again" none]
    "hello" none (by decide) (by decide)
    ⟨LiveEvent.sonioxData true "again" none, by decide⟩

/-- C8: whenever the client WebSocket closes or errors while the
upstream transcription stream is open (writable), the connection handler
explicitly ends the upstream stream. -/
theorem c8_close_terminates_stream
    (ε α χ : Type) (gen : String → Nat → Except ε String)
    (tts : String → VoiceProfile → α) (s : LiveState α χ)
    (hopen : s.streamWritable = true) :
    ((liveStep gen tts s LiveEvent.wsClose).streamEnded = true ∧
     (liveStep gen tts s LiveEvent.wsClose).streamWritable = false) ∧
    ((liveStep gen tts s LiveEvent.wsError).streamEnded = true ∧
     (liveStep gen tts s LiveEvent.wsError).streamWritable = false) := by
  simp [liveStep, hopen]

/-- Witness for C8 at a fresh connection state. -/
theorem c8_witness :
    ((liveStep genAlwaysOk ttsTag (initLiveState String Nat)
        LiveEvent.wsClose).streamEnded = true ∧
     (liveStep genAlwaysOk ttsTag (initLiveState String Nat)
        LiveEvent.wsClose).streamWritable = false) ∧
    ((liveStep genAlwaysOk ttsTag (initLiveState String Nat)
        LiveEvent.wsError).streamEnded = true ∧
     (liveStep genAlwaysOk ttsTag (initLiveState String Nat)
        LiveEvent.wsError).streamWritable = false) :=
  c8_close_terminates_stream String String Nat genAlwaysOk ttsTag
    (initLiveState String Nat) rfl

end AnshuBackend
